import Mathlib

/-!
Verification development for `src/services/api-gateway/dna_direct_import.py`:
a shallow embedding of the capability binder (`initialize_dna_backend`) and
the integration facade (`DNADirectIntegration`) with its three operations,
together with theorems settling the specification's claims.

Modelling conventions:
- Python dict/JSON values are embedded as the inductive `Value`.
- A Python exception is embedded as `Exn`, carrying `str(e)` as `message`.
- Code that may raise is embedded as `Except Exn α`; a `try/except` block
  becomes a `match` on that result, so totality of the Lean function is the
  formal counterpart of "no exception propagates to the caller".
- The external collaborators (the `llm_service` module, the separately loaded
  `main.py`, and `json.loads` over UTF-8 decoded bytes) are not part of this
  repository; their behaviour enters as explicit parameters (`Env`, the
  capability handles, and the `jloads` function), which the theorems
  quantify over.
-/

/-- JSON-like values: the payloads exchanged through the facade
(Python dicts, lists, strings, numbers, booleans, None). -/
inductive Value where
  | null : Value
  | bool (b : Bool) : Value
  | num (n : Int) : Value
  | str (s : String) : Value
  | arr (xs : List Value) : Value
  | obj (kvs : List (String × Value)) : Value

/-- A Python exception as observed by the handlers in the source:
only its textual representation `str(e)` is ever used. -/
structure Exn where
  message : String
deriving DecidableEq, Repr

/-- Handle bound from `llm_service.get_available_models_endpoint`:
an async callable taking no argument, returning a dict or raising. -/
def ModelsCap : Type := Unit → Except Exn Value

/-- Handle bound from `llm_service.llm_summary`: an async callable taking the
request payload, returning a dict or raising. -/
def SummaryCap : Type := Value → Except Exn Value

/-- The structured HTTP-style response object returned by the configuration
capability: it may expose a byte-string `content` attribute, a byte-string
`body` attribute, or neither (in which case the facade treats the returned
value itself, `asValue`, as the desired structured data). -/
structure ConfigResponse where
  content : Option (List Nat)
  body : Option (List Nat)
  asValue : Value

/-- Handle bound from the separately loaded `main.py`'s `get_config`:
a synchronous callable returning a response object or raising. -/
def ConfigCap : Type := Unit → Except Exn ConfigResponse

/-- The module-level globals of `dna_direct_import.py` (lines 18-22):
three nullable capability handles and the availability flag. -/
structure AvailabilityState where
  get_available_models_endpoint : Option ModelsCap
  llm_summary : Option SummaryCap
  get_config : Option ConfigCap
  DNA_BACKEND_AVAILABLE : Bool

/-- The initial values of the globals before `initialize_dna_backend` runs:
all handles `None`, flag `False`. -/
def initialGlobals : AvailabilityState :=
  { get_available_models_endpoint := none
    llm_summary := none
    get_config := none
    DNA_BACKEND_AVAILABLE := false }

/-- The environment the binder runs in: the outcome of each externally
determined step (imports, attribute accesses, filesystem check, module
loading). Each `Except` field is what the corresponding Python expression
does: succeed with a value, or raise. -/
structure Env where
  dna_main_path : String
  import_llm_service : Except Exn Unit
  attr_get_available_models_endpoint : Except Exn ModelsCap
  attr_llm_summary : Except Exn SummaryCap
  main_py_exists : Bool
  spec_from_file_location : Except Exn (Option Unit)
  module_from_spec : Except Exn Unit
  exec_module : Except Exn Unit
  attr_get_config : Except Exn ConfigCap

/-- The `FileNotFoundError` raised at line 43 when `main.py` is absent. -/
def fileNotFoundExn (p : String) : Exn :=
  ⟨"DNA backend main.py not found at: " ++ p⟩

/-- The `ImportError` raised at line 47 when the module spec is `None`. -/
def importSpecExn (p : String) : Exn :=
  ⟨"Could not create module spec for: " ++ p⟩

/-- The body of the `try` block of `initialize_dna_backend` (lines 31-57),
threading the global state through the sequential assignments. An exception
anywhere aborts the body, yielding `Except.error` with the globals as
assigned so far (Python leaves earlier assignments in place) and the
exception. Success yields the final globals with the flag set `True`. -/
def binderBody (env : Env) (st0 : AvailabilityState) :
    Except (AvailabilityState × Exn) AvailabilityState :=
  match env.import_llm_service with
  | .error e => .error (st0, e)
  | .ok _ =>
    match env.attr_get_available_models_endpoint with
    | .error e => .error (st0, e)
    | .ok m =>
      let st1 := { st0 with get_available_models_endpoint := some m }
      match env.attr_llm_summary with
      | .error e => .error (st1, e)
      | .ok s =>
        let st2 := { st1 with llm_summary := some s }
        if env.main_py_exists = false then
          .error (st2, fileNotFoundExn env.dna_main_path)
        else
          match env.spec_from_file_location with
          | .error e => .error (st2, e)
          | .ok none => .error (st2, importSpecExn env.dna_main_path)
          | .ok (some _) =>
            match env.module_from_spec with
            | .error e => .error (st2, e)
            | .ok _ =>
              match env.exec_module with
              | .error e => .error (st2, e)
              | .ok _ =>
                match env.attr_get_config with
                | .error e => .error (st2, e)
                | .ok c =>
                  .ok { st2 with
                        get_config := some c
                        DNA_BACKEND_AVAILABLE := true }

/-- `initialize_dna_backend` (lines 24-64): run the try-body from the initial
globals; the `except Exception` handler catches every exception and sets
`DNA_BACKEND_AVAILABLE = False`, leaving the handle globals as the body left
them. Totality of this function embeds "the binder never raises". -/
def initialize_dna_backend (env : Env) : AvailabilityState :=
  match binderBody env initialGlobals with
  | .ok st => st
  | .error (g, _) => { g with DNA_BACKEND_AVAILABLE := false }

/-- Fallback of `get_available_models` when the backend is unavailable
(lines 81-87). -/
def modelsFallbackUnavailable : Value :=
  .obj [("available_models", .arr []),
        ("enabled_providers", .arr []),
        ("available_prompt_types", .arr [.str "short"]),
        ("disable_llm", .bool true),
        ("error", .str "DNA backend not available")]

/-- Fallback of `get_available_models` when the capability raises
(lines 94-100): same shape, `error` set to `str(e)`. -/
def modelsFallbackOnError (e : Exn) : Value :=
  .obj [("available_models", .arr []),
        ("enabled_providers", .arr []),
        ("available_prompt_types", .arr [.str "short"]),
        ("disable_llm", .bool true),
        ("error", .str e.message)]

/-- Fallback of `llm_summary` when the backend is unavailable
(lines 105-112): note `error` is the boolean `True` and the fixed message
lives inside `summary`. -/
def summaryFallbackUnavailable : Value :=
  .obj [("summary", .str "Error: DNA backend not available"),
        ("provider", .str "none"),
        ("model", .str "none"),
        ("prompt_type", .str "short"),
        ("routed", .bool false),
        ("error", .bool true)]

/-- Fallback of `llm_summary` when the capability raises (lines 119-126):
`summary` carries the exception text, `provider` becomes "error",
`error` stays the boolean `True`. -/
def summaryFallbackOnError (e : Exn) : Value :=
  .obj [("summary", .str ("Error: " ++ e.message)),
        ("provider", .str "error"),
        ("model", .str "none"),
        ("prompt_type", .str "short"),
        ("routed", .bool false),
        ("error", .bool true)]

/-- Fallback of `get_config` when the backend is unavailable
(lines 131-137). -/
def configFallbackUnavailable : Value :=
  .obj [("shotgrid_enabled", .bool false),
        ("vexa_routing_enabled", .bool false),
        ("llm_backend_routing_enabled", .bool false),
        ("integrated", .bool true),
        ("error", .str "DNA backend not available")]

/-- Fallback of `get_config` when the call or the payload normalization
raises (lines 156-162): same shape, `error` set to `str(e)`. -/
def configFallbackOnError (e : Exn) : Value :=
  .obj [("shotgrid_enabled", .bool false),
        ("vexa_routing_enabled", .bool false),
        ("llm_backend_routing_enabled", .bool false),
        ("integrated", .bool true),
        ("error", .str e.message)]

/-- The behaviour of `json.loads(bs.decode(&#x27;utf-8&#x27;))`: an external
library function taking the raw bytes, producing a parsed value or raising
(on invalid UTF-8 or malformed data). The theorems quantify over it. -/
def JLoads : Type := List Nat → Except Exn Value

namespace DNADirectIntegration

/-- `DNADirectIntegration.get_available_models` (lines 78-100): if the flag
is false or the handle is `None`, return the fixed fallback; otherwise call
the handle, catching any exception into the error fallback. -/
def get_available_models (st : AvailabilityState) : Value :=
  match st.DNA_BACKEND_AVAILABLE, st.get_available_models_endpoint with
  | true, some h =>
    match h () with
    | .ok v => v
    | .error e => modelsFallbackOnError e
  | _, _ => modelsFallbackUnavailable

/-- `DNADirectIntegration.llm_summary` (lines 102-126): availability gate,
then call the handle on the request payload, catching any exception. -/
def llm_summary (st : AvailabilityState) (request_data : Value) : Value :=
  match st.DNA_BACKEND_AVAILABLE, st.llm_summary with
  | true, some h =>
    match h request_data with
    | .ok v => v
    | .error e => summaryFallbackOnError e
  | _, _ => summaryFallbackUnavailable

/-- The `hasattr`-driven normalization of the configuration response
(lines 143-153): if the object exposes `content`, decode-and-parse it;
otherwise if it exposes `body`, decode-and-parse that; otherwise pass the
value through unchanged. An error from `jloads` propagates into the
enclosing `try` of `get_config`. -/
def normalizeConfig (jloads : JLoads) (r : ConfigResponse) : Except Exn Value :=
  match r.content with
  | some bs => jloads bs
  | none =>
    match r.body with
    | some bs => jloads bs
    | none => .ok r.asValue

/-- `DNADirectIntegration.get_config` (lines 128-162): availability gate,
then the synchronous capability call followed by response normalization,
with every exception of either step caught into the error fallback. -/
def get_config (jloads : JLoads) (st : AvailabilityState) : Value :=
  match st.DNA_BACKEND_AVAILABLE, st.get_config with
  | true, some h =>
    match h () with
    | .error e => configFallbackOnError e
    | .ok r =>
      match normalizeConfig jloads r with
      | .ok v => v
      | .error e => configFallbackOnError e
  | _, _ => configFallbackUnavailable

end DNADirectIntegration

/-- One incoming call to the facade, packaging the operation selected and the
per-call inputs (the summary payload, the external parse function). -/
inductive FacadeCall where
  | getAvailableModels : FacadeCall
  | llmSummary (request_data : Value) : FacadeCall
  | getConfig (jloads : JLoads) : FacadeCall

/-- Dispatch one facade call against the globals, returning the globals and
the response. The state component is returned unchanged because no facade
method assigns to any of the four module globals. -/
def facadeStep (st : AvailabilityState) (c : FacadeCall) :
    AvailabilityState × Value :=
  match c with
  | .getAvailableModels => (st, DNADirectIntegration.get_available_models st)
  | .llmSummary req => (st, DNADirectIntegration.llm_summary st req)
  | .getConfig jl => (st, DNADirectIntegration.get_config jl st)

/-- The globals after serving a sequence of facade calls. -/
def runFacade (st : AvailabilityState) (cs : List FacadeCall) :
    AvailabilityState :=
  cs.foldl (fun s c => (facadeStep s c).1) st

/-- The key set of a response object (field names, in order). -/
def Value.keys : Value → List String
  | .obj kvs => kvs.map (fun kv => kv.1)
  | _ => []

/-- Look up a field of a response object. -/
def Value.getField (v : Value) (k : String) : Option Value :=
  match v with
  | .obj kvs => (kvs.find? (fun kv => kv.1 = k)).map (fun kv => kv.2)
  | _ => none

/-- The string held by a value, when the value is a string. -/
def Value.asString : Value → Option String
  | .str s => some s
  | _ => none

/-- Every response `get_available_models` can produce: the unavailable
fallback, an error fallback, or the raw successful result of the bound
handle. -/
def ModelsOutcome (st : AvailabilityState) (r : Value) : Prop :=
  r = modelsFallbackUnavailable
  ∨ (∃ e, r = modelsFallbackOnError e)
  ∨ (∃ h : ModelsCap,
      st.get_available_models_endpoint = some h ∧ h () = .ok r)

/-- Every response `llm_summary` can produce on payload `req`. -/
def SummaryOutcome (st : AvailabilityState) (req r : Value) : Prop :=
  r = summaryFallbackUnavailable
  ∨ (∃ e, r = summaryFallbackOnError e)
  ∨ (∃ h : SummaryCap, st.llm_summary = some h ∧ h req = .ok r)

/-- Every response `get_config` can produce: a fallback, or the successful
normalization of the handle's successful result. -/
def ConfigOutcome (jloads : JLoads) (st : AvailabilityState) (r : Value) :
    Prop :=
  r = configFallbackUnavailable
  ∨ (∃ e, r = configFallbackOnError e)
  ∨ (∃ h : ConfigCap, ∃ resp : ConfigResponse,
      st.get_config = some h ∧ h () = .ok resp ∧
      DNADirectIntegration.normalizeConfig jloads resp = .ok r)

/-- A models-listing handle whose call succeeds with `None`. -/
def capNullModels : ModelsCap := fun _ => .ok Value.null

/-- A summarization handle whose call succeeds with `None`. -/
def capNullSummary : SummaryCap := fun _ => .ok Value.null

/-- A parse function that always succeeds with `None`. -/
def jlNull : JLoads := fun _ => .ok Value.null

/-- An environment where step 1 of the binder succeeds (both `llm_service`
attributes resolve) but step 2 fails because `main.py` does not exist. -/
def envStep2Fails : Env :=
  { dna_main_path := "/gw/dna/experimental/spi/note_assistant_v2/backend/main.py"
    import_llm_service := .ok ()
    attr_get_available_models_endpoint := .ok capNullModels
    attr_llm_summary := .ok capNullSummary
    main_py_exists := false
    spec_from_file_location := .ok (some ())
    module_from_spec := .ok ()
    exec_module := .ok ()
    attr_get_config := .ok (fun _ => .ok ⟨none, none, Value.null⟩) }

/-- A summarization handle that raises an exception with message "boom". -/
def capRaiseBoom : SummaryCap := fun _ => .error ⟨"boom"⟩

/-- A models-listing handle that succeeds with the empty dict. -/
def capEmptyObjModels : ModelsCap := fun _ => .ok (Value.obj [])

/-- Helper: `get_available_models` returns its fixed fallback whenever the
flag is false, for any handle values. -/
theorem get_available_models_flag_false (m : Option ModelsCap)
    (s : Option SummaryCap) (c : Option ConfigCap) :
    DNADirectIntegration.get_available_models ⟨m, s, c, false⟩ =
      modelsFallbackUnavailable := by
  cases m <;> rfl

/-- Helper: `llm_summary` returns its fixed fallback whenever the flag is
false, for any handle values and any payload. -/
theorem llm_summary_flag_false (m : Option ModelsCap) (s : Option SummaryCap)
    (c : Option ConfigCap) (req : Value) :
    DNADirectIntegration.llm_summary ⟨m, s, c, false⟩ req =
      summaryFallbackUnavailable := by
  cases s <;> rfl

/-- Helper: `get_config` returns its fixed fallback whenever the flag is
false, for any handle values and any parse function. -/
theorem get_config_flag_false (jl : JLoads) (m : Option ModelsCap)
    (s : Option SummaryCap) (c : Option ConfigCap) :
    DNADirectIntegration.get_config jl ⟨m, s, c, false⟩ =
      configFallbackUnavailable := by
  cases c <;> rfl

/-- Claim C1: while the availability flag is false, each of the three facade
operations returns exactly its fixed fallback mapping carrying the fixed
string "DNA backend not available" (in the `error` field for the models and
config operations, inside the `summary` field for the summary operation),
on every call, independently of the handle values, the request payload, and
the parse function — hence deterministically. -/
theorem claim_C1 (m : Option ModelsCap) (s : Option SummaryCap)
    (c : Option ConfigCap) (req : Value) (jl : JLoads) :
    DNADirectIntegration.get_available_models ⟨m, s, c, false⟩ =
        modelsFallbackUnavailable
    ∧ DNADirectIntegration.llm_summary ⟨m, s, c, false⟩ req =
        summaryFallbackUnavailable
    ∧ DNADirectIntegration.get_config jl ⟨m, s, c, false⟩ =
        configFallbackUnavailable
    ∧ Value.getField modelsFallbackUnavailable "error" =
        some (Value.str "DNA backend not available")
    ∧ Value.getField summaryFallbackUnavailable "summary" =
        some (Value.str "Error: DNA backend not available")
    ∧ Value.getField configFallbackUnavailable "error" =
        some (Value.str "DNA backend not available") :=
  ⟨get_available_models_flag_false m s c, llm_summary_flag_false m s c req,
   get_config_flag_false jl m s c, rfl, rfl, rfl⟩

/-- Claim C10: if the availability flag is true but an operation's own
capability handle is null, that operation does not attempt a call and
returns its unavailable fallback (which carries the fixed string
"DNA backend not available"): each operation independently checks both the
flag and its own handle, so a null handle is never invoked even when the
availability invariant is violated. -/
theorem claim_C10 (m : Option ModelsCap) (s : Option SummaryCap)
    (c : Option ConfigCap) (req : Value) (jl : JLoads) :
    DNADirectIntegration.get_available_models ⟨none, s, c, true⟩ =
        modelsFallbackUnavailable
    ∧ DNADirectIntegration.llm_summary ⟨m, none, c, true⟩ req =
        summaryFallbackUnavailable
    ∧ DNADirectIntegration.get_config jl ⟨m, s, none, true⟩ =
        configFallbackUnavailable :=
  ⟨rfl, rfl, rfl⟩

/-- Claim C6: when the backend is available and the bound capability
completes successfully, `get_available_models` returns the capability's raw
result unchanged, and `llm_summary` returns the raw result of the bound
capability applied to the unmodified request payload (here the capability
computes `g` of whatever payload it receives, and the facade's result is
exactly `g req`). -/
theorem claim_C6 (v : Value) (g : Value → Value) (req : Value)
    (m : Option ModelsCap) (s : Option SummaryCap) (c : Option ConfigCap) :
    DNADirectIntegration.get_available_models
        ⟨some (fun _ => .ok v), s, c, true⟩ = v
    ∧ DNADirectIntegration.llm_summary
        ⟨m, some (fun r => .ok (g r)), c, true⟩ req = g req :=
  ⟨rfl, rfl⟩

/-- Claim C5: the configuration response is normalized by exactly one of
three paths in fixed priority order. When the object exposes a `content`
byte payload, the result is the decode-and-parse of that payload for every
value of the `body` attribute (so the body path is never also taken);
when only `body` is exposed, the result is the decode-and-parse of `body`;
when neither is exposed, the returned value passes through unchanged.
A decode-and-parse failure falls into the error fallback. -/
theorem claim_C5 (jl : JLoads) (bs : List Nat) (b : Option (List Nat))
    (v : Value) (m : Option ModelsCap) (s : Option SummaryCap) :
    DNADirectIntegration.get_config jl
        ⟨m, s, some (fun _ => .ok ⟨some bs, b, v⟩), true⟩ =
      (match jl bs with
       | .ok w => w
       | .error e => configFallbackOnError e)
    ∧ DNADirectIntegration.get_config jl
        ⟨m, s, some (fun _ => .ok ⟨none, some bs, v⟩), true⟩ =
      (match jl bs with
       | .ok w => w
       | .error e => configFallbackOnError e)
    ∧ DNADirectIntegration.get_config jl
        ⟨m, s, some (fun _ => .ok ⟨none, none, v⟩), true⟩ = v := by
  refine ⟨?_, ?_, rfl⟩ <;>
    · cases hjl : jl bs <;>
        simp [DNADirectIntegration.get_config,
          DNADirectIntegration.normalizeConfig, hjl]

/-- Claim C2: no facade operation ever propagates an exception — each is a
total function into response values — and for every state (hence every
behaviour of the bound capability, including raising) and every input, the
returned value is either the capability's own result or one of the
operation's two fallback mappings, whose `error` field is populated (the
fixed string or the exception text for models/config, the boolean `True`
with the text inside `summary` for the summary operation). -/
theorem claim_C2 (st : AvailabilityState) (req : Value) (jl : JLoads) :
    ModelsOutcome st (DNADirectIntegration.get_available_models st)
    ∧ SummaryOutcome st req (DNADirectIntegration.llm_summary st req)
    ∧ ConfigOutcome jl st (DNADirectIntegration.get_config jl st) := by
  obtain ⟨m, s, c, b⟩ := st
  refine ⟨?_, ?_, ?_⟩
  · cases b with
    | false => exact Or.inl (get_available_models_flag_false m s c)
    | true =>
      cases m with
      | none => exact Or.inl rfl
      | some h =>
        cases hh : h () with
        | ok v =>
          have hr : DNADirectIntegration.get_available_models
              ⟨some h, s, c, true⟩ = v := by
            simp [DNADirectIntegration.get_available_models, hh]
          rw [hr]
          exact Or.inr (Or.inr ⟨h, rfl, hh⟩)
        | error e =>
          have hr : DNADirectIntegration.get_available_models
              ⟨some h, s, c, true⟩ = modelsFallbackOnError e := by
            simp [DNADirectIntegration.get_available_models, hh]
          rw [hr]
          exact Or.inr (Or.inl ⟨e, rfl⟩)
  · cases b with
    | false => exact Or.inl (llm_summary_flag_false m s c req)
    | true =>
      cases s with
      | none => exact Or.inl rfl
      | some h =>
        cases hh : h req with
        | ok v =>
          have hr : DNADirectIntegration.llm_summary
              ⟨m, some h, c, true⟩ req = v := by
            simp [DNADirectIntegration.llm_summary, hh]
          rw [hr]
          exact Or.inr (Or.inr ⟨h, rfl, hh⟩)
        | error e =>
          have hr : DNADirectIntegration.llm_summary
              ⟨m, some h, c, true⟩ req = summaryFallbackOnError e := by
            simp [DNADirectIntegration.llm_summary, hh]
          rw [hr]
          exact Or.inr (Or.inl ⟨e, rfl⟩)
  · cases b with
    | false => exact Or.inl (get_config_flag_false jl m s c)
    | true =>
      cases c with
      | none => exact Or.inl rfl
      | some h =>
        cases hh : h () with
        | error e =>
          have hr : DNADirectIntegration.get_config jl
              ⟨m, s, some h, true⟩ = configFallbackOnError e := by
            simp [DNADirectIntegration.get_config, hh]
          rw [hr]
          exact Or.inr (Or.inl ⟨e, rfl⟩)
        | ok resp =>
          cases hn : DNADirectIntegration.normalizeConfig jl resp with
          | ok v =>
            have hr : DNADirectIntegration.get_config jl
                ⟨m, s, some h, true⟩ = v := by
              simp [DNADirectIntegration.get_config, hh, hn]
            rw [hr]
            exact Or.inr (Or.inr ⟨h, resp, rfl, hh, hn⟩)
          | error e =>
            have hr : DNADirectIntegration.get_config jl
                ⟨m, s, some h, true⟩ = configFallbackOnError e := by
              simp [DNADirectIntegration.get_config, hh, hn]
            rw [hr]
            exact Or.inr (Or.inl ⟨e, rfl⟩)

/-- Helper: dispatching a facade call leaves the four module globals
unchanged (no facade method assigns to any of them). -/
theorem facadeStep_fst (st : AvailabilityState) (c : FacadeCall) :
    (facadeStep st c).1 = st := by
  cases c <;> rfl

/-- Helper: serving any sequence of facade calls leaves the globals
untouched. -/
theorem runFacade_fixed (cs : List FacadeCall) (st : AvailabilityState) :
    runFacade st cs = st := by
  induction cs with
  | nil => rfl
  | cons c cs ih =>
    have h : runFacade st (c :: cs) = runFacade (facadeStep st c).1 cs := rfl
    rw [h, facadeStep_fst st c, ih]

/-- Helper: when the try-body of the binder completes, all three handles are
bound and the flag is set. -/
theorem binderBody_ok_shape (env : Env) (st : AvailabilityState)
    (h : binderBody env initialGlobals = .ok st) :
    st.get_available_models_endpoint.isSome = true
    ∧ st.llm_summary.isSome = true
    ∧ st.get_config.isSome = true
    ∧ st.DNA_BACKEND_AVAILABLE = true := by
  obtain ⟨p, i, a1, a2, ex, sp, mf, em, ac⟩ := env
  rcases i with e0 | u0 <;>
  rcases a1 with e1 | mcap <;>
  rcases a2 with e2 | scap <;>
  cases ex <;>
  rcases sp with e3 | o <;>
  rcases mf with e4 | u4 <;>
  rcases em with e5 | u5 <;>
  rcases ac with e6 | ccap <;>
  try rcases o with _ | u3
  all_goals simp_all [binderBody, initialGlobals]
  all_goals (subst h; simp)

/-- Helper: when the try-body of the binder raises, the globals at that
point never contain a configuration handle (it is only assigned in the
final, fully successful branch). -/
theorem binderBody_error_shape (env : Env) (g : AvailabilityState) (e : Exn)
    (h : binderBody env initialGlobals = .error (g, e)) :
    g.get_config = none := by
  obtain ⟨p, i, a1, a2, ex, sp, mf, em, ac⟩ := env
  rcases i with e0 | u0 <;>
  rcases a1 with e1 | mcap <;>
  rcases a2 with e2 | scap <;>
  cases ex <;>
  rcases sp with e3 | o <;>
  rcases mf with e4 | u4 <;>
  rcases em with e5 | u5 <;>
  rcases ac with e6 | ccap <;>
  try rcases o with _ | u3
  all_goals simp_all [binderBody, initialGlobals]
  all_goals (obtain ⟨h1, h2⟩ := h; subst h1; rfl)

/-- Claim C3: after `initialize_dna_backend` completes, the availability
flag is true exactly when all three capability handles are non-null, and
none of the four globals is ever mutated again: serving any sequence of
facade calls (the only code that runs afterwards) leaves the state
identical. -/
theorem claim_C3 (env : Env) (cs : List FacadeCall) :
    (initialize_dna_backend env).DNA_BACKEND_AVAILABLE =
      ((initialize_dna_backend env).get_available_models_endpoint.isSome
        && (initialize_dna_backend env).llm_summary.isSome
        && (initialize_dna_backend env).get_config.isSome)
    ∧ runFacade (initialize_dna_backend env) cs =
        initialize_dna_backend env := by
  refine ⟨?_, runFacade_fixed cs _⟩
  rcases hb : binderBody env initialGlobals with ⟨g, e⟩ | st
  · have hg := binderBody_error_shape env g e hb
    have hi : initialize_dna_backend env =
        { g with DNA_BACKEND_AVAILABLE := false } := by
      simp [initialize_dna_backend, hb]
    rw [hi]
    simp [hg]
  · have hs := binderBody_ok_shape env st hb
    have hi : initialize_dna_backend env = st := by
      simp [initialize_dna_backend, hb]
    rw [hi]
    simp [hs.1, hs.2.1, hs.2.2.1, hs.2.2.2]

/-- Claim C9: the binder never raises — `initialize_dna_backend` returns a
state for every environment: when its try-body completes, that state is
returned; when the body raises anywhere, the top-level handler catches the
exception and the binder still returns normally, with the flag forced to
false. -/
theorem claim_C9 (env : Env) :
    ∃ st : AvailabilityState, initialize_dna_backend env = st ∧
      (binderBody env initialGlobals = .ok st
       ∨ ∃ g e, binderBody env initialGlobals = .error (g, e) ∧
           st = { g with DNA_BACKEND_AVAILABLE := false }) := by
  rcases hb : binderBody env initialGlobals with ⟨g, e⟩ | st
  · exact ⟨{ g with DNA_BACKEND_AVAILABLE := false },
      by simp [initialize_dna_backend, hb], Or.inr ⟨g, e, rfl, rfl⟩⟩
  · exact ⟨st, by simp [initialize_dna_backend, hb], Or.inl rfl⟩

/-- Counterexample to claim C4 as stated: in an environment where step 1
succeeds and step 2 fails (`main.py` missing), the binder sets the flag to
false but does NOT discard the handles obtained in step 1 — the `except`
handler only clears the flag, so the models and summary globals remain
bound (`isSome`) while only the config global is null. -/
theorem counterexample_C4 :
    (initialize_dna_backend envStep2Fails).DNA_BACKEND_AVAILABLE = false
    ∧ (initialize_dna_backend
        envStep2Fails).get_available_models_endpoint.isSome = true
    ∧ (initialize_dna_backend envStep2Fails).llm_summary.isSome = true
    ∧ (initialize_dna_backend envStep2Fails).get_config.isSome = false :=
  ⟨rfl, rfl, rfl, rfl⟩

/-- Claim C4 (amended): for every failure of either resolution step the
binder sets the availability flag to false; capability handles already
assigned before the failure remain stored in the globals (they are not
discarded), but no residual handle is usable through the facade: every
facade operation on the resulting state returns its unavailable fallback
without invoking any handle, because each operation checks the flag
first. -/
theorem claim_C4 (env : Env) (g : AvailabilityState) (e : Exn)
    (hb : binderBody env initialGlobals = .error (g, e)) :
    (initialize_dna_backend env).DNA_BACKEND_AVAILABLE = false
    ∧ ∀ (req : Value) (jl : JLoads),
        DNADirectIntegration.get_available_models
            (initialize_dna_backend env) = modelsFallbackUnavailable
        ∧ DNADirectIntegration.llm_summary
            (initialize_dna_backend env) req = summaryFallbackUnavailable
        ∧ DNADirectIntegration.get_config jl
            (initialize_dna_backend env) = configFallbackUnavailable := by
  have hi : initialize_dna_backend env =
      { g with DNA_BACKEND_AVAILABLE := false } := by
    simp [initialize_dna_backend, hb]
  rw [hi]
  obtain ⟨m, s, c, b⟩ := g
  exact ⟨rfl, fun req jl =>
    ⟨get_available_models_flag_false m s c,
     llm_summary_flag_false m s c req,
     get_config_flag_false jl m s c⟩⟩

/-- Witness for claim C4 at the concrete environment `envStep2Fails`
(step 1 succeeds, step 2 fails on the missing `main.py`). -/
theorem claim_C4_witness :
    (initialize_dna_backend envStep2Fails).DNA_BACKEND_AVAILABLE = false
    ∧ DNADirectIntegration.get_available_models
        (initialize_dna_backend envStep2Fails) = modelsFallbackUnavailable :=
  have h := claim_C4 envStep2Fails
    ⟨some capNullModels, some capNullSummary, none, false⟩
    (fileNotFoundExn envStep2Fails.dna_main_path) rfl
  ⟨h.1, (h.2 Value.null jlNull).1⟩

/-- Counterexample to claim C7 as stated: when the bound summarization
capability raises an exception with text "boom", the operation's `error`
field is the boolean `True` — it holds no string at all, in particular not
the exception's textual message, which instead appears inside the `summary`
field prefixed with "Error: ". -/
theorem counterexample_C7 :
    Value.getField (DNADirectIntegration.llm_summary
        ⟨none, some capRaiseBoom, none, true⟩ Value.null) "error"
      = some (Value.bool true)
    ∧ (Value.getField (DNADirectIntegration.llm_summary
        ⟨none, some capRaiseBoom, none, true⟩ Value.null) "error").bind
        Value.asString = none
    ∧ Value.getField (DNADirectIntegration.llm_summary
        ⟨none, some capRaiseBoom, none, true⟩ Value.null) "summary"
      = some (Value.str "Error: boom") :=
  ⟨rfl, rfl, rfl⟩

/-- Claim C7 (amended): when a bound capability raises during a call, no
exception escapes the facade and the operation returns its error fallback:
for `get_available_models` the `error` field equals the exception's textual
message; for `llm_summary` the `summary` field equals "Error: " followed by
the exception's textual message while the `error` field is the boolean
`True`. -/
theorem claim_C7 (e : Exn) (m : Option ModelsCap) (s : Option SummaryCap)
    (c : Option ConfigCap) (req : Value) :
    DNADirectIntegration.get_available_models
        ⟨some (fun _ => .error e), s, c, true⟩ = modelsFallbackOnError e
    ∧ DNADirectIntegration.llm_summary
        ⟨m, some (fun _ => .error e), c, true⟩ req = summaryFallbackOnError e
    ∧ Value.getField (modelsFallbackOnError e) "error" =
        some (Value.str e.message)
    ∧ Value.getField (summaryFallbackOnError e) "summary" =
        some (Value.str ("Error: " ++ e.message))
    ∧ Value.getField (summaryFallbackOnError e) "error" =
        some (Value.bool true) :=
  ⟨rfl, rfl, rfl, rfl, rfl⟩

/-- Counterexample to claim C8 as stated: the success branch is a pure
pass-through, so a bound models capability that returns the empty dict
yields a response with an empty key set, which differs from the fallback's
key set — the key set is not identical across every possible outcome. -/
theorem counterexample_C8 :
    Value.keys (DNADirectIntegration.get_available_models
        ⟨some capEmptyObjModels, none, none, true⟩) = []
    ∧ Value.keys modelsFallbackUnavailable =
        ["available_models", "enabled_providers", "available_prompt_types",
         "disable_llm", "error"]
    ∧ (Value.keys (DNADirectIntegration.get_available_models
          ⟨some capEmptyObjModels, none, none, true⟩)
        == Value.keys modelsFallbackUnavailable) = false :=
  ⟨rfl, rfl, rfl⟩

/-- Claim C8 (amended): for each of the three operations the two fallback
branches (dependency unavailable, capability raises mid-call) carry the
identical key set; the success branch passes the capability's result
through unchanged, so its key set matches the fallbacks' only when the
capability itself returns the contract shape. -/
theorem claim_C8 (e : Exn) (v : Value) (m : Option ModelsCap)
    (s : Option SummaryCap) (c : Option ConfigCap) (req : Value) :
    Value.keys (modelsFallbackOnError e) = Value.keys modelsFallbackUnavailable
    ∧ Value.keys (summaryFallbackOnError e) =
        Value.keys summaryFallbackUnavailable
    ∧ Value.keys (configFallbackOnError e) =
        Value.keys configFallbackUnavailable
    ∧ DNADirectIntegration.get_available_models
        ⟨some (fun _ => .ok v), s, c, true⟩ = v
    ∧ DNADirectIntegration.llm_summary
        ⟨m, some (fun _ => .ok v), c, true⟩ req = v :=
  ⟨rfl, rfl, rfl, rfl, rfl⟩
